import Mathlib

/-!
Verification of the tier/cost recommendation logic of the
Python-Azure-Demo repository.

The repository's scripts operate on synthetic in-memory tables of
resource records and apply fixed threshold/discount rules.  We embed the
decision logic shallowly: Python floats carrying exact decimal money
values and percentages are modelled as rationals (`ℚ`), days counters as
integers (`ℤ`), Python's uncaught exceptions (ZeroDivisionError) as
`Except PyExc`, and numpy scalar expressions that can take IEEE special
values as `NpFloat`.  Every threshold comparison and discount factor
below is transcribed from the corresponding Python source line.
-/

/-- A Python runtime exception relevant here: an uncaught
`ZeroDivisionError` terminates the script (a crash).  Only pure-Python
`/` on Python numbers raises it; numpy scalar division does not. -/
inductive PyExc where
  | zeroDivisionError
deriving DecidableEq, Repr

/-- The value of a `numpy.float64` expression whose inputs are exact
decimals: either a finite (exactly representable here as rational)
value, or one of the IEEE special values that numpy division by zero
produces — `inf`, `-inf`, or `nan` for `0.0 / 0.0` — together with a
`RuntimeWarning`, never an exception. -/
inductive NpFloat where
  | finite (q : ℚ)
  | posInf
  | negInf
  | nan
deriving DecidableEq, Repr

/-- Azure blob/storage access tier, the enum `'Hot' | 'Cool' | 'Archive'`
used throughout the scripts. -/
inductive Tier where
  | Hot
  | Cool
  | Archive
deriving DecidableEq, Repr

namespace Day1c

/-! Embedding of `src/azure-storage-day1c.py` (blob storage tier
recommendation). -/

/-- One row of the `storage_data` DataFrame, restricted to the fields the
recommendation logic reads. -/
structure StorageRecord where
  account_name : String
  monthly_cost : ℚ
  current_tier : Tier
  last_access_days : ℤ
deriving DecidableEq, Repr

/-- `recommend_tier` (azure-storage-day1c.py lines 129–141):
`< 30 → Hot`, `< 90 → Cool`, else `Archive`. -/
def recommend_tier (last_access_days : ℤ) : Tier :=
  if last_access_days < 30 then Tier.Hot
  else if last_access_days < 90 then Tier.Cool
  else Tier.Archive

/-- `calculate_savings` (azure-storage-day1c.py lines 147–159): an
`if/elif` chain over the `(current_tier, recommended_tier)` pair with
factors 0.50, 0.80, 0.60, and `else: return 0`. -/
def calculate_savings (current recommended : Tier) (cost : ℚ) : ℚ :=
  if current = Tier.Hot ∧ recommended = Tier.Cool then cost * (50 / 100)
  else if current = Tier.Hot ∧ recommended = Tier.Archive then cost * (80 / 100)
  else if current = Tier.Cool ∧ recommended = Tier.Archive then cost * (60 / 100)
  else 0

/-- The `recommended_tier` column: `recommend_tier` applied per row. -/
def recommended_tier (r : StorageRecord) : Tier :=
  recommend_tier r.last_access_days

/-- The `potential_savings` column: `calculate_savings` applied per row. -/
def potential_savings (r : StorageRecord) : ℚ :=
  calculate_savings r.current_tier (recommended_tier r) r.monthly_cost

/-- `needs_optimization` (line 165): rows whose `current_tier` differs
from their `recommended_tier`. -/
def needs_optimization (rs : List StorageRecord) : List StorageRecord :=
  rs.filter (fun r => decide (r.current_tier ≠ recommended_tier r))

/-- `total_savings = storage_data['potential_savings'].sum()` (line 170):
the unrounded sum of the per-row column. -/
def total_savings (rs : List StorageRecord) : ℚ :=
  (rs.map potential_savings).sum

/-- `total_cost = storage_data['monthly_cost'].sum()` (line 68). -/
def total_cost (rs : List StorageRecord) : ℚ :=
  (rs.map (fun r => r.monthly_cost)).sum

/-- The executive-summary ROI expression
`total_savings / total_cost * 100` (line 231).  Both operands are pandas
`Series.sum()` results, i.e. `numpy.float64` scalars, so a zero
denominator does not raise: numpy emits a `RuntimeWarning` and the
division evaluates to `inf`, `-inf`, or — for `0.0 / 0.0` — `nan`,
which the f-string then renders.  The `* 100` scaling preserves each
special value. -/
def roiPercent (rs : List StorageRecord) : NpFloat :=
  if total_cost rs = 0 then
    if total_savings rs = 0 then NpFloat.nan
    else if total_savings rs > 0 then NpFloat.posInf
    else NpFloat.negInf
  else NpFloat.finite (total_savings rs / total_cost rs * 100)

end Day1c

namespace VM

/-! Embedding of `src/vm-cost-optmiser-day1a.py` (VM rightsizing). -/

/-- `calculate_potential_savings` (lines 38–49):
`savings = current_cost * reduction_percentage`. -/
def calculate_potential_savings (current_cost reduction_percentage : ℚ) : ℚ :=
  current_cost * reduction_percentage

/-- `recommend_action` (lines 52–80): the `if/elif/else` chain over
`cpu_avg` with the production check nested under `cpu_avg < 10`. -/
def recommend_action (cpu_avg : ℚ) (is_prod : Bool) : String :=
  if cpu_avg < 10 then
    if !is_prod then "STOP - Extremely underutilized"
    else "DOWNSIZE - Consider smaller VM size"
  else if cpu_avg ≥ 10 ∧ cpu_avg < 20 then "REVIEW - Low utilization, monitor closely"
  else if cpu_avg ≥ 20 ∧ cpu_avg < 60 then "OPTIMAL - Good utilization"
  else "ALERT - High utilization, consider scaling up"

/-- `calculate_average` (lines 83–97): sums the list then divides by
`len(values)`.  On an empty list Python evaluates `0 / 0` and raises an
uncaught `ZeroDivisionError` (modelled as `Except.error`). -/
def calculate_average (values : List ℚ) : Except PyExc ℚ :=
  if values.length = 0 then Except.error PyExc.zeroDivisionError
  else Except.ok (values.sum / (values.length : ℚ))

/-- One entry of `vm_list` in the batch analysis (lines 178–182). -/
structure VMInfo where
  name : String
  cpu : ℚ
  cost : ℚ
deriving DecidableEq, Repr

/-- The batch `while` loop (lines 184–205): accumulate
`calculate_potential_savings(cost, 0.5)` for VMs with
`cpu < 15 and cost > 50`. -/
def batch_total_wasted (vms : List VMInfo) : ℚ :=
  vms.foldl
    (fun acc vm =>
      if vm.cpu < 15 ∧ vm.cost > 50 then
        acc + calculate_potential_savings vm.cost (5 / 10)
      else acc)
    0

end VM

namespace Demo

/-! Embedding of `src/Gl-Demo1-Data-Visulation.py` (blob dashboard:
`hot_unused` / `cool_unused` recommendations). -/

/-- One row of the blob DataFrame, restricted to the fields the
optimization cells read. -/
structure Blob where
  blob_name : String
  monthly_cost : ℚ
  access_tier : Tier
  last_accessed_days : ℤ
deriving DecidableEq, Repr

/-- `hot_unused` (line 116): Hot-tier blobs with
`last_accessed_days > 90` (strict). -/
def hot_unused (bs : List Blob) : List Blob :=
  bs.filter (fun b => decide (b.access_tier = Tier.Hot ∧ b.last_accessed_days > 90))

/-- `cool_unused` (line 140): Cool-tier blobs with
`last_accessed_days > 180` (strict). -/
def cool_unused (bs : List Blob) : List Blob :=
  bs.filter (fun b => decide (b.access_tier = Tier.Cool ∧ b.last_accessed_days > 180))

/-- The per-record tier recommendation induced by the two filters: rows
of `hot_unused` get `recommended_tier = 'Cool'` (line 263), rows of
`cool_unused` are moved Cool → Archive (lines 140–150), and every other
row keeps its current tier (no recommendation is emitted for it). -/
def demo_recommended_tier (tier : Tier) (days : ℤ) : Tier :=
  if tier = Tier.Hot ∧ days > 90 then Tier.Cool
  else if tier = Tier.Cool ∧ days > 180 then Tier.Archive
  else tier

/-- The per-record savings induced by the script: `monthly_cost * 0.44`
for `hot_unused` rows (lines 120, 265), `monthly_cost * 0.90` for
`cool_unused` rows (line 144), and 0 for rows that get no
recommendation. -/
def demo_potential_savings (tier : Tier) (days : ℤ) (cost : ℚ) : ℚ :=
  if tier = Tier.Hot ∧ days > 90 then cost * (44 / 100)
  else if tier = Tier.Cool ∧ days > 180 then cost * (90 / 100)
  else 0

end Demo

namespace AzureOpt

/-! Embedding of the recommendation aggregation in
`src/Azure-Cost-Optimisation.py` (cell 7). -/

/-- Each recommendation stores `Potential_Savings` as the string
`f'${v:.2f}'`; the total (lines 486–487) parses these strings back with
`float(s.replace('$','').replace(',',''))` and sums them.  The
format-then-parse round trip keeps exactly 2 fractional digits: we model
it as rounding to the nearest multiple of 1/100.  (Python rounds the
underlying binary float; away from decimal ties — as at every input used
below — this agrees with exact rational rounding.) -/
def format_then_parse (v : ℚ) : ℚ :=
  ((round (v * 100) : ℤ) : ℚ) / 100

/-- `total_savings` of Azure-Cost-Optimisation.py (lines 486–487): the
sum of the parsed 2-decimal `Potential_Savings` strings of the
recommendation list, given the raw (pre-formatting) savings values. -/
def azure_total_savings (raws : List ℚ) : ℚ :=
  (raws.map format_then_parse).sum

/-- The weekend rule's raw savings value (line 437):
`potential_savings = weekend_costs[service] * 0.6`. -/
def weekend_rule_savings (weekend_cost : ℚ) : ℚ :=
  weekend_cost * (6 / 10)

end AzureOpt

namespace SpecModel

/-! Generic engine pieces that exist only in the spec's re-specified
form (§3–§4), not as reusable code under `src/`. -/

/-- Modelled from the spec: one entry of the §4 transition table, keyed
by the `(current_tier, recommended_tier)` pair with a
`discount_fraction`. -/
structure TransitionRule where
  cur : Tier
  tgt : Tier
  disc : ℚ
deriving DecidableEq, Repr

/-- Modelled from the spec: §4 step 3 — look the discount up by the
`(current_tier, recommended_tier)` pair; pairs absent from the table are
a no-op with `potential_savings = 0`. -/
def savings_with_table (table : List TransitionRule) (cur tgt : Tier) (cost : ℚ) : ℚ :=
  match table.find? (fun t => decide (t.cur = cur ∧ t.tgt = tgt)) with
  | some t => cost * t.disc
  | none => 0

end SpecModel

/-- The tier temperature ordering Hot < Cool < Archive, as a rank. -/
def tier_rank : Tier → ℕ
  | Tier.Hot => 0
  | Tier.Cool => 1
  | Tier.Archive => 2

/-! ## Shared helper lemmas -/

/-- When the recommended tier equals the current tier, the
`calculate_savings` chain falls through to its `else: return 0`. -/
theorem calculate_savings_self (t : Tier) (c : ℚ) :
    Day1c.calculate_savings t t c = 0 := by
  cases t <;> simp [Day1c.calculate_savings]

/-- A record already in its recommended tier has zero potential savings. -/
theorem potential_savings_of_optimal (r : Day1c.StorageRecord)
    (h : Day1c.recommended_tier r = r.current_tier) :
    Day1c.potential_savings r = 0 := by
  unfold Day1c.potential_savings
  rw [h]
  exact calculate_savings_self _ _

/-- The unrounded savings total over all rows equals the total over just
the rows that need optimization: rows filtered out contribute zero. -/
theorem total_savings_eq_over_needs_optimization (rs : List Day1c.StorageRecord) :
    Day1c.total_savings rs =
      ((Day1c.needs_optimization rs).map Day1c.potential_savings).sum := by
  induction rs with
  | nil => rfl
  | cons r rs ih =>
    by_cases h : r.current_tier = Day1c.recommended_tier r
    · have hz : Day1c.potential_savings r = 0 :=
        potential_savings_of_optimal r h.symm
      simp [Day1c.total_savings, Day1c.needs_optimization, List.filter_cons, h, hz] at *
      exact ih
    · simp [Day1c.total_savings, Day1c.needs_optimization, List.filter_cons, h] at *
      rw [ih]

/-! ## Claims -/

/-- C1 (counterexample): in `Gl-Demo1-Data-Visulation.py` a Hot blob
whose recency signal is exactly 90 days fails the strict filter
`last_accessed_days > 90`, so it keeps its Hot tier and is NOT
recommended for the Cool rule — refuting lower-bound-inclusive
classification at the 90-day boundary of that script. -/
theorem c1_hot_90_counterexample :
    Demo.demo_recommended_tier Tier.Hot 90 = Tier.Hot ∧ Tier.Hot ≠ Tier.Cool := by
  decide

/-- C1 (amended): classification is lower-bound-inclusive /
upper-bound-exclusive in `azure-storage-day1c.py` (`recommend_tier`:
Hot = (−∞,30), Cool = [30,90), Archive = [90,∞)) and at the VM CPU
boundaries 10/20/60 of `recommend_action`; but the
`Gl-Demo1-Data-Visulation.py` filters compare with strict `>`, so their
Hot→Cool and Cool→Archive rules are lower-bound-EXCLUSIVE: a Hot blob at
exactly 90 days (and a Cool blob at exactly 180) keeps its tier. -/
theorem c1_boundary_semantics (d : ℤ) (p : Bool) :
    (Day1c.recommend_tier d = Tier.Hot ↔ d < 30) ∧
    (Day1c.recommend_tier d = Tier.Cool ↔ 30 ≤ d ∧ d < 90) ∧
    (Day1c.recommend_tier d = Tier.Archive ↔ 90 ≤ d) ∧
    VM.recommend_action 10 p = "REVIEW - Low utilization, monitor closely" ∧
    VM.recommend_action 20 p = "OPTIMAL - Good utilization" ∧
    VM.recommend_action 60 p = "ALERT - High utilization, consider scaling up" ∧
    (Demo.demo_recommended_tier Tier.Hot d = Tier.Cool ↔ 90 < d) ∧
    (Demo.demo_recommended_tier Tier.Cool d = Tier.Archive ↔ 180 < d) := by
  refine ⟨?_, ?_, ?_, ?_, ?_, ?_, ?_, ?_⟩
  · unfold Day1c.recommend_tier
    split_ifs <;> simp_all <;> omega
  · unfold Day1c.recommend_tier
    split_ifs <;> simp_all <;> omega
  · unfold Day1c.recommend_tier
    split_ifs <;> simp_all <;> omega
  · cases p <;> decide
  · cases p <;> decide
  · cases p <;> decide
  · unfold Demo.demo_recommended_tier
    split_ifs <;> simp_all <;> omega
  · unfold Demo.demo_recommended_tier
    split_ifs <;> simp_all <;> omega

/-- C3: every `(current_tier, recommended_tier)` pair absent from the
three-entry discount chain of `calculate_savings` (e.g. Cool→Hot, or any
transition out of Archive) falls through to `else: return 0` — a total
function, so no error is raised. -/
theorem c3_undefined_transition_zero (cur tgt : Tier) (cost : ℚ)
    (h : (cur, tgt) ∉ [(Tier.Hot, Tier.Cool), (Tier.Hot, Tier.Archive),
        (Tier.Cool, Tier.Archive)]) :
    Day1c.calculate_savings cur tgt cost = 0 := by
  cases cur <;> cases tgt <;> simp_all [Day1c.calculate_savings]

/-- C3 witness: the Cool→Hot transition is not in the table and yields
zero savings. -/
theorem c3_witness :
    (Tier.Cool, Tier.Hot) ∉ [(Tier.Hot, Tier.Cool), (Tier.Hot, Tier.Archive),
        (Tier.Cool, Tier.Archive)] ∧
    Day1c.calculate_savings Tier.Cool Tier.Hot 100 = 0 :=
  ⟨by decide, c3_undefined_transition_zero Tier.Cool Tier.Hot 100 (by decide)⟩

/-- C6: the spec's example scenario under the 0.44-discount Hot→Cool
policy of `Gl-Demo1-Data-Visulation.py`: a Hot record with recency 95
and cost 100 is recommended Cool with savings 44, and the same record
with recency 89 keeps Hot with savings 0. -/
theorem c6_example_scenario :
    Demo.demo_recommended_tier Tier.Hot 95 = Tier.Cool ∧
    Demo.demo_potential_savings Tier.Hot 95 100 = 44 ∧
    Demo.demo_recommended_tier Tier.Hot 89 = Tier.Hot ∧
    Demo.demo_potential_savings Tier.Hot 89 100 = 0 := by
  refine ⟨by decide, ?_, by decide, ?_⟩ <;> norm_num [Demo.demo_potential_savings]

/-- C9: `recommend_tier` is monotone in `last_access_days` for the
ordering Hot < Cool < Archive: more days since access never yields a
hotter recommendation. -/
theorem c9_recommend_tier_monotone (d1 d2 : ℤ) (h : d1 ≤ d2) :
    tier_rank (Day1c.recommend_tier d1) ≤ tier_rank (Day1c.recommend_tier d2) := by
  unfold Day1c.recommend_tier
  split_ifs <;> simp [tier_rank] <;> omega

/-- C9 witness: 10 ≤ 200 and the ranks are ordered accordingly. -/
theorem c9_witness :
    (10 : ℤ) ≤ 200 ∧
    tier_rank (Day1c.recommend_tier 10) ≤ tier_rank (Day1c.recommend_tier 200) :=
  ⟨by decide, c9_recommend_tier_monotone 10 200 (by decide)⟩

/-- A zero sum of nonnegative monthly costs forces every individual
monthly cost to be zero. -/
theorem monthly_cost_zero_of_total_cost_zero (rs : List Day1c.StorageRecord) :
    (∀ r ∈ rs, 0 ≤ r.monthly_cost) → Day1c.total_cost rs = 0 →
    ∀ r ∈ rs, r.monthly_cost = 0 := by
  induction rs with
  | nil =>
    intro _ _ r hr
    simp at hr
  | cons a t ih =>
    intro hc h0 r hr
    have ha : 0 ≤ a.monthly_cost := hc a (List.mem_cons_self a t)
    have htn : 0 ≤ Day1c.total_cost t := by
      apply List.sum_nonneg
      intro x hx
      obtain ⟨s, hs, rfl⟩ := List.mem_map.mp hx
      exact hc s (List.mem_cons_of_mem a hs)
    have hsplit : a.monthly_cost + Day1c.total_cost t = 0 := by
      simpa [Day1c.total_cost] using h0
    rcases List.mem_cons.mp hr with h | h
    · rw [h]
      linarith
    · exact ih (fun x hx => hc x (List.mem_cons_of_mem a hx)) (by linarith) r h

/-- Every savings branch multiplies the monthly cost, so a table whose
nonnegative costs sum to zero also has zero total savings. -/
theorem total_savings_zero_of_total_cost_zero (rs : List Day1c.StorageRecord)
    (hc : ∀ r ∈ rs, 0 ≤ r.monthly_cost) (h0 : Day1c.total_cost rs = 0) :
    Day1c.total_savings rs = 0 := by
  have hz := monthly_cost_zero_of_total_cost_zero rs hc h0
  unfold Day1c.total_savings
  apply List.sum_eq_zero
  intro x hx
  obtain ⟨r, hr, rfl⟩ := List.mem_map.mp hx
  have hr0 : r.monthly_cost = 0 := hz r hr
  unfold Day1c.potential_savings Day1c.calculate_savings
  split_ifs <;> simp [hr0]

/-- C2: under the spec's `current_cost ≥ 0` invariant, a zero summed
current cost (including the empty table) forces a zero summed savings,
so the numpy ROI expression of `azure-storage-day1c.py` evaluates
`0.0 / 0.0`: numpy returns the explicit undefined value `nan` (rendered
as `nan%`) with a `RuntimeWarning` — no exception is raised, and the
result is never a finite number, in particular not a silent 0. -/
theorem c2_roi_division_undefined (rs : List Day1c.StorageRecord)
    (hc : ∀ r ∈ rs, 0 ≤ r.monthly_cost) (h0 : Day1c.total_cost rs = 0) :
    Day1c.roiPercent rs = NpFloat.nan ∧
    ∀ q : ℚ, Day1c.roiPercent rs ≠ NpFloat.finite q := by
  have hs : Day1c.total_savings rs = 0 :=
    total_savings_zero_of_total_cost_zero rs hc h0
  have h1 : Day1c.roiPercent rs = NpFloat.nan := by
    unfold Day1c.roiPercent
    simp [h0, hs]
  refine ⟨h1, fun q hq => ?_⟩
  rw [h1] at hq
  exact NpFloat.noConfusion hq

/-- C2 witness: the empty table and a nonempty all-zero-cost table both
yield the undefined `nan` ROI. -/
theorem c2_witness :
    Day1c.roiPercent [] = NpFloat.nan ∧
    Day1c.roiPercent [⟨"a", 0, Tier.Hot, 200⟩] = NpFloat.nan :=
  ⟨(c2_roi_division_undefined [] (by simp) rfl).1,
   (c2_roi_division_undefined [⟨"a", 0, Tier.Hot, 200⟩]
      (by
        intro r hr
        simp at hr
        rw [hr])
      (by simp [Day1c.total_cost])).1⟩

/-- C4: a record whose recommendation equals its current tier has zero
potential savings, is excluded from `needs_optimization`, and — since
excluded records contribute zero — the total over all records equals the
total over just the `needs_optimization` records. -/
theorem c4_noop_records (rs : List Day1c.StorageRecord) (r : Day1c.StorageRecord)
    (hr : r ∈ rs) (he : Day1c.recommended_tier r = r.current_tier) :
    Day1c.potential_savings r = 0 ∧
    r ∉ Day1c.needs_optimization rs ∧
    Day1c.total_savings rs =
      ((Day1c.needs_optimization rs).map Day1c.potential_savings).sum := by
  refine ⟨potential_savings_of_optimal r he, ?_,
    total_savings_eq_over_needs_optimization rs⟩
  simp [Day1c.needs_optimization, List.mem_filter, he]

/-- C4 witness: a Hot record accessed 5 days ago is recommended Hot,
saves nothing, and is excluded from the optimization report. -/
theorem c4_witness :
    Day1c.potential_savings ⟨"a", 100, Tier.Hot, 5⟩ = 0 ∧
    (⟨"a", 100, Tier.Hot, 5⟩ : Day1c.StorageRecord) ∉
      Day1c.needs_optimization [⟨"a", 100, Tier.Hot, 5⟩] ∧
    Day1c.total_savings [⟨"a", 100, Tier.Hot, 5⟩] =
      ((Day1c.needs_optimization [⟨"a", 100, Tier.Hot, 5⟩]).map
        Day1c.potential_savings).sum :=
  c4_noop_records [⟨"a", 100, Tier.Hot, 5⟩] ⟨"a", 100, Tier.Hot, 5⟩
    (by decide) (by decide)

/-- C5 (counterexample): in `Azure-Cost-Optimisation.py` each
`Potential_Savings` is formatted as a 2-decimal string and parsed back
before the sum, so for a weekend cost of 10.01 the raw savings 6.006 is
summed as 6.01 — the aggregate is NOT the exact unrounded sum. -/
theorem c5_rounding_counterexample :
    AzureOpt.azure_total_savings [AzureOpt.weekend_rule_savings (1001 / 100)] ≠
      [AzureOpt.weekend_rule_savings (1001 / 100)].sum := by
  norm_num [AzureOpt.azure_total_savings, AzureOpt.weekend_rule_savings,
    AzureOpt.format_then_parse, round_eq]

/-- C5 (amended): in `azure-storage-day1c.py` the aggregate
`total_savings` is the exact unrounded sum of the per-record
`potential_savings` column (rounding happens only in the final
formatted prints); but in `Azure-Cost-Optimisation.py` each
`Potential_Savings` value is rounded to 2 fractional digits (via its
`'$%.2f'` string) before summation, so that aggregate is the sum of the
rounded values and can differ from the exact sum (e.g. raw savings
6.006 contributes 6.01). -/
theorem c5_rounding_semantics (rs : List Day1c.StorageRecord) :
    Day1c.total_savings rs = (rs.map Day1c.potential_savings).sum ∧
    AzureOpt.weekend_rule_savings (1001 / 100) = 3003 / 500 ∧
    AzureOpt.azure_total_savings [AzureOpt.weekend_rule_savings (1001 / 100)] =
      601 / 100 ∧
    (3003 / 500 : ℚ) ≠ 601 / 100 := by
  refine ⟨rfl, ?_, ?_, by norm_num⟩
  · norm_num [AzureOpt.weekend_rule_savings]
  · norm_num [AzureOpt.azure_total_savings, AzureOpt.weekend_rule_savings,
      AzureOpt.format_then_parse, round_eq]

/-- C7 (counterexample): `calculate_average` of
`vm-cost-optmiser-day1a.py` divides by `len(values)`, so on an empty
list it raises `ZeroDivisionError` — an empty input to this aggregate is
an error, not a zero-valued result. -/
theorem c7_empty_average_counterexample :
    VM.calculate_average [] = Except.error PyExc.zeroDivisionError := rfl

/-- C7 (amended): the summation-based aggregates accept empty input —
empty records give `total_savings = 0`, an empty `needs_optimization`
report, zero batch waste, and empty filter results, and an all-optimal
record set likewise gives zero savings and an empty report — but
`calculate_average` raises `ZeroDivisionError` on an empty value list,
so not every aggregation of the scripts tolerates empty input. -/
theorem c7_empty_inputs (rs : List Day1c.StorageRecord)
    (hopt : ∀ r ∈ rs, Day1c.recommended_tier r = r.current_tier) :
    Day1c.total_savings ([] : List Day1c.StorageRecord) = 0 ∧
    Day1c.needs_optimization ([] : List Day1c.StorageRecord) = [] ∧
    VM.batch_total_wasted [] = 0 ∧
    Demo.hot_unused [] = [] ∧
    Demo.cool_unused [] = [] ∧
    Day1c.total_savings rs = 0 ∧
    Day1c.needs_optimization rs = [] ∧
    VM.calculate_average [] = Except.error PyExc.zeroDivisionError := by
  refine ⟨rfl, rfl, rfl, rfl, rfl, ?_, ?_, rfl⟩
  · induction rs with
    | nil => rfl
    | cons r t ih =>
      have h0 : Day1c.potential_savings r = 0 :=
        potential_savings_of_optimal r (hopt r (List.mem_cons_self r t))
      have ht : Day1c.total_savings t = 0 :=
        ih (fun x hx => hopt x (List.mem_cons_of_mem r hx))
      simp [Day1c.total_savings, h0] at *
      exact ht
  · simp only [Day1c.needs_optimization, List.filter_eq_nil]
    intro r hrs
    simp [hopt r hrs]

/-- C7 witness: a singleton all-optimal table (Hot, accessed 5 days
ago) yields zero total savings and an empty optimization report. -/
theorem c7_witness :
    Day1c.total_savings [⟨"a", 100, Tier.Hot, 5⟩] = 0 ∧
    Day1c.needs_optimization [⟨"a", 100, Tier.Hot, 5⟩] = [] :=
  ⟨(c7_empty_inputs [⟨"a", 100, Tier.Hot, 5⟩] (by decide)).2.2.2.2.2.1,
   (c7_empty_inputs [⟨"a", 100, Tier.Hot, 5⟩] (by decide)).2.2.2.2.2.2.1⟩

/-- C8: with a nonnegative cost and every discount fraction of the
transition table in [0,1], the generic table lookup yields nonnegative
savings; the concrete chains of `azure-storage-day1c.py` (factors
0.50/0.80/0.60) and `Gl-Demo1-Data-Visulation.py` (0.44/0.90) are
likewise nonnegative. -/
theorem c8_savings_nonneg (table : List SpecModel.TransitionRule)
    (cur tgt : Tier) (d : ℤ) (cost : ℚ) (hc : 0 ≤ cost)
    (ht : ∀ t ∈ table, 0 ≤ t.disc ∧ t.disc ≤ 1) :
    0 ≤ SpecModel.savings_with_table table cur tgt cost ∧
    0 ≤ Day1c.calculate_savings cur tgt cost ∧
    0 ≤ Demo.demo_potential_savings cur d cost := by
  refine ⟨?_, ?_, ?_⟩
  · unfold SpecModel.savings_with_table
    cases hfind : table.find? (fun t => decide (t.cur = cur ∧ t.tgt = tgt)) with
    | none => simp
    | some t =>
      have hmem : t ∈ table := List.mem_of_find?_eq_some hfind
      simpa using mul_nonneg hc (ht t hmem).1
  · unfold Day1c.calculate_savings
    split_ifs <;> first | exact mul_nonneg hc (by norm_num) | norm_num
  · unfold Demo.demo_potential_savings
    split_ifs <;> first | exact mul_nonneg hc (by norm_num) | norm_num

/-- C8 witness: the 0.44 Hot→Cool table at cost 100. -/
theorem c8_witness :
    0 ≤ SpecModel.savings_with_table [⟨Tier.Hot, Tier.Cool, 44 / 100⟩]
      Tier.Hot Tier.Cool 100 ∧
    0 ≤ Day1c.calculate_savings Tier.Hot Tier.Cool 100 ∧
    0 ≤ Demo.demo_potential_savings Tier.Hot 95 100 :=
  c8_savings_nonneg [⟨Tier.Hot, Tier.Cool, 44 / 100⟩] Tier.Hot Tier.Cool 95 100
    (by norm_num) (by intro t htm; simp at htm; subst htm; norm_num)

/-- C10 (counterexample): `recommend_action` returns a fifth string,
`STOP`, for a non-production VM at 5% CPU — so it is not true that every
input maps to one of the four non-STOP action strings. -/
theorem c10_stop_counterexample :
    VM.recommend_action 5 false = "STOP - Extremely underutilized" ∧
    "STOP - Extremely underutilized" ∉
      ["DOWNSIZE - Consider smaller VM size",
       "REVIEW - Low utilization, monitor closely",
       "OPTIMAL - Good utilization",
       "ALERT - High utilization, consider scaling up"] := by
  decide

/-- C10 (amended): for a production VM `recommend_action` never returns
STOP — it returns one of the four strings DOWNSIZE/REVIEW/OPTIMAL/ALERT,
and DOWNSIZE whenever `cpu_avg < 10`; it is total, returning for every
input one of the five action strings (STOP only possible when not
production). -/
theorem c10_prod_actions (cpu : ℚ) (prod : Bool) :
    VM.recommend_action cpu true ≠ "STOP - Extremely underutilized" ∧
    (VM.recommend_action cpu true = "DOWNSIZE - Consider smaller VM size" ∨
     VM.recommend_action cpu true = "REVIEW - Low utilization, monitor closely" ∨
     VM.recommend_action cpu true = "OPTIMAL - Good utilization" ∨
     VM.recommend_action cpu true = "ALERT - High utilization, consider scaling up") ∧
    (cpu < 10 → VM.recommend_action cpu true = "DOWNSIZE - Consider smaller VM size") ∧
    (VM.recommend_action cpu prod = "STOP - Extremely underutilized" ∨
     VM.recommend_action cpu prod = "DOWNSIZE - Consider smaller VM size" ∨
     VM.recommend_action cpu prod = "REVIEW - Low utilization, monitor closely" ∨
     VM.recommend_action cpu prod = "OPTIMAL - Good utilization" ∨
     VM.recommend_action cpu prod = "ALERT - High utilization, consider scaling up") := by
  refine ⟨?_, ?_, ?_, ?_⟩
  · unfold VM.recommend_action
    split_ifs <;> first | decide | simp_all
  · unfold VM.recommend_action
    split_ifs <;> first | decide | simp_all
  · intro h
    unfold VM.recommend_action
    rw [if_pos h]
    decide
  · unfold VM.recommend_action
    cases prod <;> split_ifs <;> first | decide | simp_all

/-- C10 witness: a production VM at 5% CPU gets DOWNSIZE. -/
theorem c10_witness :
    VM.recommend_action 5 true = "DOWNSIZE - Consider smaller VM size" :=
  (c10_prod_actions 5 true).2.2.1 (by norm_num)
